import Mathlib

/-!
Shallow embedding of the PyLab SCPI command validation engine
(`pylab/communication/SCPI.py`, class `SCPICommandSet`, plus
`pylab/devices/scpidevice.py`, method `SCPIDevice._normalize_set_value`).

Python values that flow through the engine are modelled by `PyVal`
(booleans, ints, floats, strings and `None`).  Python floats are modelled
as exact rationals: every numeric literal appearing in the verified
scenarios (2, 12.5, 0, 60, 1.0, 2.5, ...) is exactly representable in
binary floating point, so exact rational comparison agrees with the
Python float comparisons the code performs on them.
-/

/-- Model of a Python value as passed to the SCPI engine. -/
inductive PyVal where
  | bool (b : Bool)
  | int (n : Int)
  | float (q : Rat)
  | str (s : String)
  | none
deriving DecidableEq

/-- Python numeric view used by `==`, `<` and `>` on numbers.  Python
booleans are `int` subclasses, so `True` compares equal to `1`. -/
def pyNumVal : PyVal → Option Rat
  | .bool b => some (if b then 1 else 0)
  | .int n => some (n : Rat)
  | .float q => some q
  | _ => Option.none

/-- Python `==` between engine values: numbers (incl. booleans) compare by
numeric value, strings compare exactly, `None` equals only `None`, and
numeric/string cross comparisons are unequal. -/
def pyEq (a b : PyVal) : Bool :=
  match a, b with
  | .str x, .str y => x == y
  | .none, .none => true
  | x, y =>
    match pyNumVal x, pyNumVal y with
    | some u, some v => u == v
    | _, _ => false

/-- Whitespace as recognised by Python `str.strip()` (ASCII subset). -/
def isPySpace (c : Char) : Bool :=
  c == ' ' || c == '\t' || c == '\n' || c == '\r' || c.toNat == 11 || c.toNat == 12

/-- Python `str.strip()`: drop leading and trailing whitespace. -/
def pyStrip (s : String) : String :=
  String.mk (((s.data.dropWhile isPySpace).reverse.dropWhile isPySpace).reverse)

/-- Python `str.upper()` (ASCII case mapping suffices for the catalogs). -/
def sUpper (s : String) : String :=
  String.mk (s.data.map Char.toUpper)

/-- Left-pad a digit string with zeros up to width `k`. -/
def padZeros (s : String) (k : Nat) : String :=
  String.mk (List.replicate (k - s.length) '0') ++ s

/-- Python `str()` of a float, for floats whose value is a finitely
representable decimal (all floats handled by the verified scenarios):
render the shortest decimal expansion, keeping at least one fractional
digit (`str(1.0) = "1.0"`, `str(12.5) = "12.5"`).  Rationals without a
short decimal expansion get an arbitrary (unused) rendering. -/
def floatRepr (q : Rat) : String :=
  match (List.range 31).find? (fun k => 10 ^ k % q.den == 0) with
  | some 0 => toString q.num ++ ".0"
  | some k =>
    let a := q.num.natAbs * (10 ^ k / q.den)
    (if q.num < 0 then "-" else "") ++ toString (a / 10 ^ k) ++ "." ++
      padZeros (toString (a % 10 ^ k)) k
  | Option.none => toString q.num ++ "/" ++ toString q.den

/-- Python `str()` of an engine value, exactly as used by the command
string assembly (`",".join(str(a) for a in cleaned_args)`). -/
def pyStr : PyVal → String
  | .bool true => "True"
  | .bool false => "False"
  | .int n => toString n
  | .float q => floatRepr q
  | .str s => s
  | .none => "None"

/-- One positional argument definition, mirroring the catalog dictionaries
read by `SCPICommandSet`.  Dictionary lookups with defaults
(`.get("required", True)`, `.get("variadic", False)`) become field
defaults; a `default`/`values`/`range` key that is absent or set to the
JSON `null` is modelled as `Option.none` (the code treats the two
identically).  `range` bounds are the raw catalog values; `PyVal.none`
stands for an open bound. -/
structure ArgDef where
  type? : Option String := Option.none
  required : Bool := true
  default? : Option PyVal := Option.none
  values? : Option (List PyVal) := Option.none
  range? : Option (PyVal × PyVal) := Option.none
  variadic : Bool := false
deriving DecidableEq

/-- Response field definition (only its presence matters to
`validate_command`; the field structure mirrors the spec for the
spec-modelled response parser). -/
structure RespDef where
  rtype : String
  rvalues? : Option (List PyVal) := Option.none
deriving DecidableEq

/-- One command definition: `set` and `query` argument definition lists
(`Option.none` = form unsupported, `some []` = supported with no
arguments) and the response shape. -/
structure CmdDef where
  set? : Option (List ArgDef) := Option.none
  query? : Option (List ArgDef) := Option.none
  response? : Option (List RespDef) := Option.none
deriving DecidableEq

/-- The SCPI exception classes raised by `SCPI.py`. -/
inductive ExcClass where
  | scpiUnknownCommandError
  | scpiArgumentError
  | scpiArgumentValueError
deriving DecidableEq

/-- An SCPI error value: the Python exception class together with the
command it was raised for and the static part of its `info` text (the
interpolated argument/definition payloads are omitted). -/
inductive SCPIErr where
  | unknownCommand (command : String) (info : String)
  | argumentError (command : String) (info : String)
  | argumentValueError (command : String) (info : String)
deriving DecidableEq

/-- The Python exception class of an error value. -/
def SCPIErr.cls : SCPIErr → ExcClass
  | .unknownCommand _ _ => .scpiUnknownCommandError
  | .argumentError _ _ => .scpiArgumentError
  | .argumentValueError _ _ => .scpiArgumentValueError

/-- The `(is_ok, error_kind)` result kinds of `validate_argument`:
`"type"` and `"value"`. -/
inductive ErrKind where
  | tyErr
  | valErr
deriving DecidableEq

instance {α β : Type} [DecidableEq α] [DecidableEq β] : DecidableEq (Except α β) := fun x y =>
  match x, y with
  | .ok a, .ok b =>
    if h : a = b then .isTrue (by rw [h]) else .isFalse (fun c => by cases c; exact h rfl)
  | .error a, .error b =>
    if h : a = b then .isTrue (by rw [h]) else .isFalse (fun c => by cases c; exact h rfl)
  | .ok _, .error _ => .isFalse (fun c => by cases c)
  | .error _, .ok _ => .isFalse (fun c => by cases c)

/-- The accepted boolean token set of `validate_argument`. -/
def boolTokens : List String := ["ON", "OFF", "0", "1", "TRUE", "FALSE"]

/-- The basic type check of `validate_argument` for a `bool` definition:
a boolean, a non-boolean number equal to 0 or 1, or a string whose
stripped upper-casing is one of the accepted tokens. -/
def boolTypeOk : PyVal → Bool
  | .bool _ => true
  | .int n => decide (n = 0 ∨ n = 1)
  | .float q => decide (q = 0 ∨ q = 1)
  | .str s => boolTokens.contains (sUpper (pyStrip s))
  | .none => false

/-- The basic type check of `validate_argument`, dispatching on the
definition's declared `type` string.  An unknown type string raises
`SCPIArgumentError` (a definition defect). -/
def typeOk? (t : String) (v : PyVal) : Except SCPIErr Bool :=
  if t = "bool" then .ok (boolTypeOk v)
  else if t = "int" then .ok (match v with | .int _ => true | _ => false)
  else if t = "float" then
    .ok (match v with | .int _ => true | .float _ => true | _ => false)
  else if t = "str" then .ok (match v with | .str _ => true | _ => false)
  else .error (.argumentError "Definition" "Unknown argument type")

/-- The enumerated-values check: for string arguments, membership is
case-insensitive against string entries (plus exact `==`); for other
arguments, plain Python `in`.  Returns `true` when the check FAILS. -/
def valuesFail (d : ArgDef) (v : PyVal) : Bool :=
  match d.values? with
  | Option.none => false
  | some allowed =>
    match v with
    | .str s =>
      !allowed.any (fun w =>
        (match w with | .str ws => sUpper ws == sUpper s | _ => false) || pyEq w v)
    | _ => !allowed.any (fun w => pyEq v w)

/-- Comparison of a numeric argument against one range bound.  Mirrors
`low is not None and isinstance(low, (int, float))`: booleans pass the
`isinstance` test (they are `int` subclasses) and compare as 0/1; string
or `None` bounds are skipped. -/
def boundLT (x : Rat) (bound : PyVal) : Bool :=
  match pyNumVal bound with
  | some b => decide (x < b)
  | Option.none => false

/-- As `boundLT`, for the upper bound (`argument > high`). -/
def boundGT (x : Rat) (bound : PyVal) : Bool :=
  match pyNumVal bound with
  | some b => decide (x > b)
  | Option.none => false

/-- The numeric-range check of `validate_argument`: only applied to
non-boolean `int`/`float` arguments.  Returns `true` when it FAILS. -/
def rangeFail (d : ArgDef) (v : PyVal) : Bool :=
  match d.range? with
  | Option.none => false
  | some (lo, hi) =>
    match v with
    | .int n => boundLT (n : Rat) lo || boundGT (n : Rat) hi
    | .float q => boundLT q lo || boundGT q hi
    | _ => false

/-- `SCPICommandSet.validate_argument`: type check first (`"type"` kind on
failure), then enumerated values, then numeric range (`"value"` kind on
failure).  `.ok Option.none` is the `(True, None)` result; `.ok (some k)`
is `(False, kind)`; `.error` models the `SCPIArgumentError` raised for a
malformed definition (missing or unknown `type`). -/
def validate_argument (v : PyVal) (d : ArgDef) : Except SCPIErr (Option ErrKind) :=
  match d.type? with
  | Option.none => .error (.argumentError "Definition" "Argument definition missing type")
  | some t =>
    if v = PyVal.none then .ok (some .tyErr)
    else
      match typeOk? t v with
      | .error e => .error e
      | .ok false => .ok (some .tyErr)
      | .ok true =>
        if valuesFail d v then .ok (some .valErr)
        else if rangeFail d v then .ok (some .valErr)
        else .ok Option.none

/-- Python `command.endswith("?")`. -/
def isQueryCmd (s : String) : Bool :=
  s.data.getLast? == some '?'

/-- Python `command[:-1]`. -/
def stripLast (s : String) : String :=
  String.mk s.data.dropLast

/-- Inner scan of `validate_command` step 4: try the current value against
the definitions from the cursor onward.  `idx` is the absolute index of
the head definition.  On the first success, return the matched index and
definition.  A failing REQUIRED definition raises immediately with that
failure's kind; a failing optional definition is skipped, remembering the
last error kind.  Running out of definitions raises with the last kind
(`SCPIArgumentValueError` for `"value"`, else `SCPIArgumentError`). -/
def scanMatch (command : String) (v : PyVal) :
    List ArgDef → Nat → Option ErrKind → Except SCPIErr (Nat × ArgDef)
  | [], _, last =>
    .error (match last with
      | some .valErr =>
        .argumentValueError command
          "Unable to validate argument against any remaining argument definitions"
      | _ =>
        .argumentError command
          "Unable to validate argument against any remaining argument definitions")
  | d :: rest, idx, _ =>
    match validate_argument v d with
    | .error e => .error e
    | .ok Option.none => .ok (idx, d)
    | .ok (some k) =>
      if d.required then
        .error (match k with
          | .valErr =>
            .argumentValueError command "Unable to validate argument against definition"
          | .tyErr =>
            .argumentError command "Unable to validate argument against definition")
      else scanMatch command v rest (idx + 1) (some k)

/-- Outer loop of `validate_command` step 4: walk the provided values left
to right, keeping a cursor into the definition list and a map from
definition index to the values recorded for it (`matched_args`).  Raises
`TooManyArguments` when values remain but the cursor is exhausted.  After
a match the cursor advances past the definition unless it is variadic. -/
def matchArgs (command : String) (arg_defs : List ArgDef) :
    List PyVal → Nat → (Nat → List PyVal) → Except SCPIErr (Nat → List PyVal)
  | [], _, matched => .ok matched
  | v :: rest, cursor, matched =>
    if arg_defs.length ≤ cursor then
      .error (.argumentError command "Too many arguments supplied?")
    else
      match scanMatch command v (arg_defs.drop cursor) cursor Option.none with
      | .error e => .error e
      | .ok (idx, d) =>
        matchArgs command arg_defs rest (if d.variadic then idx else idx + 1)
          (fun i => if i = idx then matched i ++ [v] else matched i)

/-- `validate_command` step 5: for every definition (index-enumerated)
not yet matched, if it is optional and declares a non-null default,
validate the default against the definition itself (raising
`SCPIArgumentValueError`/`SCPIArgumentError` for an invalid default) and
record it as that definition's single value. -/
def fillDefaults (command : String) :
    List (Nat × ArgDef) → (Nat → List PyVal) → Except SCPIErr (Nat → List PyVal)
  | [], matched => .ok matched
  | (idx, d) :: rest, matched =>
    if (matched idx).isEmpty then
      match d.required, d.default? with
      | false, some dv =>
        match validate_argument dv d with
        | .error e => .error e
        | .ok (some .valErr) =>
          .error (.argumentValueError command "Default value invalid for definition")
        | .ok (some .tyErr) =>
          .error (.argumentError command "Default value invalid for definition")
        | .ok Option.none =>
          fillDefaults command rest (fun i => if i = idx then [dv] else matched i)
      | _, _ => fillDefaults command rest matched
    else fillDefaults command rest matched

/-- `validate_command` step 6 (value collection): walk the definitions in
order; a definition with no recorded values is skipped, a variadic
definition contributes all its recorded values in encounter order, any
other definition contributes its first recorded value. -/
def collectArgs : List (Nat × ArgDef) → (Nat → List PyVal) → List PyVal
  | [], _ => []
  | (idx, d) :: rest, m =>
    (match m idx with
     | [] => []
     | v :: vs => if d.variadic then v :: vs else [v]) ++ collectArgs rest m

/-- `.get("required", True)` on the first definition of a list. -/
def headRequired : List ArgDef → Bool
  | [] => false
  | d :: _ => d.required

/-- `SCPICommandSet.validate_command`: resolve the query/set form from a
trailing `?`, look the base name up in the catalog
(`SCPIUnknownCommandError` if absent), select the form's argument
definitions (`SCPIUnknownCommandError` with a format-not-supported info
if `None`), require a `response` entry for queries, reject an empty
argument list whose FIRST definition is required, then run sequential
matching, default filling, and string assembly
(`f"{command} " + ",".join(str(a) ...)`, stripped). -/
def validate_command (cs : List (String × CmdDef))
    (command : String) (args : List PyVal) : Except SCPIErr String :=
  let is_query := isQueryCmd command
  let base := if is_query then stripLast command else command
  match List.lookup base cs with
  | Option.none => .error (.unknownCommand command "Base command not found.")
  | some cmd_def =>
    match (if is_query then cmd_def.query? else cmd_def.set?) with
    | Option.none =>
      .error (.unknownCommand command
        (if is_query then "Query format not supported." else "Set format not supported."))
    | some arg_defs =>
      if is_query && cmd_def.response?.isNone then
        .error (.unknownCommand command
          "Command definition error: Query supported but no responce format set.")
      else if args.isEmpty && !arg_defs.isEmpty && headRequired arg_defs then
        .error (.argumentError command "No arguments, but arguments required!")
      else
        match matchArgs command arg_defs args 0 (fun _ => []) with
        | .error e => .error e
        | .ok matched =>
          match fillDefaults command arg_defs.enum matched with
          | .error e => .error e
          | .ok matched2 =>
            .ok (pyStrip (command ++ " " ++
              String.intercalate "," ((collectArgs arg_defs.enum matched2).map pyStr)))

/-- A Python runtime error that is not an `SCPIError`: referencing a
local variable before assignment. -/
inductive PyRuntimeErr where
  | unboundLocalError
deriving DecidableEq

/-- `SCPICommandSet.get`: when the command token ends in `?` the local
variable `base` is bound to the token without the marker and the raw
definition is fetched with `dict.get(base, None)` (so an absent base
yields `None`, not an exception); when the token has NO marker, `base` is
never assigned and Python raises `UnboundLocalError`. -/
def scpiGet (cs : List (String × CmdDef)) (command : String) :
    Except PyRuntimeErr (Option CmdDef) :=
  if isQueryCmd command then .ok (List.lookup (stripLast command) cs)
  else .error .unboundLocalError

/-- The `VOLT` command of the verified scenarios: an optional leading
`int` channel argument in range 1..4, then a required `float` in
range 0..60. -/
def voltDef : CmdDef :=
  { set? := some
      [{ type? := some "int", required := false, range? := some (.int 1, .int 4) },
       { type? := some "float", required := true, range? := some (.int 0, .int 60) }] }

def catVolt : List (String × CmdDef) := [("VOLT", voltDef)]

/-- The required variadic `float` definition of `DYN:SEQ`. -/
def dynArg : ArgDef := { type? := some "float", required := true, variadic := true }

def dynDef : CmdDef := { set? := some [dynArg] }

def catDyn : List (String × CmdDef) := [("DYN:SEQ", dynDef)]

def shorDef : CmdDef := { set? := some [{ type? := some "bool", required := true }] }

def catShor : List (String × CmdDef) := [("INP:SHOR", shorDef)]

/-- Numeric value of an all-digit character list (`Option.none` when empty
or containing a non-digit). -/
def digitsVal? (l : List Char) : Option Nat :=
  if l.isEmpty || !l.all Char.isDigit then Option.none
  else some (l.foldl (fun a c => a * 10 + (c.toNat - 48)) 0)

/-- Python `int(s)` on an already-stripped string: optional sign then
decimal digits.  (Underscored literals and other bases are not modelled;
no catalog or scenario uses them.) -/
def parseIntStr (s : String) : Option Int :=
  match s.data with
  | '-' :: rest => (digitsVal? rest).map (fun n => -(n : Int))
  | '+' :: rest => (digitsVal? rest).map (fun n => (n : Int))
  | l => (digitsVal? l).map (fun n => (n : Int))

/-- Split a character list on a separator, Python `str.split(sep)` style:
`splitChar ',' "".data = [[]]`. -/
def splitChar (c : Char) : List Char → List (List Char)
  | [] => [[]]
  | a :: rest =>
    match splitChar c rest with
    | [] => [[a]]
    | h :: t => if a == c then [] :: h :: t else (a :: h) :: t

/-- Python `s.split(sep)` for a one-character separator. -/
def pySplit (c : Char) (s : String) : List String :=
  (splitChar c s.data).map String.mk

/-- Unsigned part of Python `float(s)`: digits with at most one decimal
point, at least one digit overall (`"1."`, `".5"`, `"12"`, `"2.5"`).
Exponent and infinity/nan forms are not modelled; nothing uses them. -/
def parseUFloatChars (l : List Char) : Option Rat :=
  match splitChar '.' l with
  | [a] => (digitsVal? a).map (fun n => (n : Rat))
  | [a, b] =>
    if (a.all Char.isDigit && b.all Char.isDigit) && !(a.isEmpty && b.isEmpty) then
      some (mkRat (((a.foldl (fun x c => x * 10 + (c.toNat - 48)) 0) * 10 ^ b.length +
        b.foldl (fun x c => x * 10 + (c.toNat - 48)) 0 : Nat) : Int) (10 ^ b.length))
    else Option.none
  | _ => Option.none

/-- Python `float(s)` on an already-stripped string. -/
def parseFloatStr (s : String) : Option Rat :=
  match s.data with
  | '-' :: rest => (parseUFloatChars rest).map (fun q => -q)
  | '+' :: rest => parseUFloatChars rest
  | l => parseUFloatChars l

/-- Truncation toward zero, as Python `int()` applied to a float. -/
def ratTrunc (q : Rat) : Int :=
  if q.num < 0 then -(Int.ofNat (q.num.natAbs / q.den)) else Int.ofNat (q.num.natAbs / q.den)

/-- Python `float(value)` as used by `_normalize_set_value`: numbers
convert by value (booleans to 0/1), strings parse after stripping,
anything else raises (modelled as `Option.none`, which the caller turns
into "return the value unchanged"). -/
def pyFloatOf : PyVal → Option Rat
  | .bool b => some (if b then 1 else 0)
  | .int n => some (n : Rat)
  | .float q => some q
  | .str s => parseFloatStr (pyStrip s)
  | .none => Option.none

/-- Python `int(value)` as used by `_normalize_set_value`: floats truncate
toward zero, strings must be (signed) digit strings. -/
def pyIntOf : PyVal → Option Int
  | .bool b => some (if b then 1 else 0)
  | .int n => some n
  | .float q => some (ratTrunc q)
  | .str s => parseIntStr (pyStrip s)
  | .none => Option.none

/-- The MIN/MAX token substitution of `_normalize_set_value`, entered when
the value is a string whose upper-casing is `MIN` or `MAX`: substitute the
corresponding bound when it is not `None`, otherwise return the value
unchanged. -/
def normTokenSub (rng : PyVal × PyVal) (s : String) (value : PyVal) : PyVal :=
  if sUpper s == "MIN" then (if rng.1 ≠ PyVal.none then rng.1 else value)
  else if rng.2 ≠ PyVal.none then rng.2 else value

/-- The clamping step of `_normalize_set_value`: starting from the
converted number (`startVal`, with numeric value `x`), replace it by the
lower bound when `x < low`, then by the upper bound when the (possibly
replaced) value exceeds `high`.  `None` bounds are skipped.  (A non-null,
non-numeric bound would raise `TypeError` in Python; the catalogs only
carry numeric or null bounds, so that path is modelled as a skip.) -/
def numClamp (startVal : PyVal) (x : Rat) (lo hi : PyVal) : PyVal :=
  let c1 : PyVal :=
    match pyNumVal lo with
    | some l => if x < l then lo else startVal
    | Option.none => startVal
  let cv : Rat := (pyNumVal c1).getD x
  match pyNumVal hi with
  | some h => if cv > h then hi else c1
  | Option.none => c1

/-- The numeric branch of `_normalize_set_value`: convert the value with
`float()`/`int()` according to the first argument definition's type
(returning the value unchanged when conversion raises), then clamp it into
the declared range. -/
def normNumeric (arg_def : ArgDef) (rng : PyVal × PyVal) (value : PyVal) : PyVal :=
  if arg_def.type? == some "float" then
    match pyFloatOf value with
    | some x => numClamp (.float x) x rng.1 rng.2
    | Option.none => value
  else if arg_def.type? == some "int" then
    match pyIntOf value with
    | some n => numClamp (.int n) ((n : Int) : Rat) rng.1 rng.2
    | Option.none => value
  else value

/-- `SCPIDevice._normalize_set_value`: look the command up (an unknown
command passes the value through), take the FIRST `set` argument
definition (no/empty `set` list passes the value through), substitute
MIN/MAX tokens by the range bounds, and clamp numeric values into the
declared range.  The command definition lookup is modelled as a direct
catalog lookup by the given command token, per the `get_command_def`
docstring contract ("return the raw command definition"). -/
def normalize_set_value (cs : List (String × CmdDef)) (command : String)
    (value : PyVal) : PyVal :=
  match List.lookup command cs with
  | Option.none => value
  | some cmd_def =>
    match cmd_def.set? with
    | Option.none => value
    | some [] => value
    | some (arg_def :: _) =>
      let rng := arg_def.range?.getD (PyVal.none, PyVal.none)
      match value with
      | .str s =>
        if sUpper s == "MIN" || sUpper s == "MAX" then normTokenSub rng s value
        else normNumeric arg_def rng value
      | v => normNumeric arg_def rng v

/-- Modelled from the spec: the error kinds of response parsing.  The
repository contains only tests and callers of the response parser
(`parse_responce` in `test/test_scpi_commandvalidator.py`); its
implementation is absent from the source tree, so these definitions
follow spec section 4.6. -/
inductive RespErr where
  | unknownCommand
  | responseShapeMismatch
  | fieldTypeError
  | fieldValueError
deriving DecidableEq

/-- Modelled from the spec: the result of `parse_response` — raw text for
zero response fields, a single typed value for one field, a value list
for several. -/
inductive RespOut where
  | raw (s : String)
  | one (v : PyVal)
  | many (vs : List PyVal)
deriving DecidableEq

/-- Strip trailing numeric command-suffix digits (spec section 4.6). -/
def dropTrailingDigits (s : String) : String :=
  String.mk (s.data.reverse.dropWhile Char.isDigit).reverse

/-- Modelled from the spec: allowed-values membership for a parsed
response field (case-insensitive for strings, as in section 4.5). -/
def respValuesOk (rd : RespDef) (v : PyVal) : Bool :=
  match rd.rvalues? with
  | Option.none => true
  | some allowed =>
    match v with
    | .str s =>
      allowed.any (fun w =>
        (match w with | .str ws => sUpper ws == sUpper s | _ => false) || pyEq w v)
    | _ => allowed.any (fun w => pyEq v w)

/-- Modelled from the spec: parse one response part against its field
definition — `int`/`float` parse numerically, `str` is taken verbatim,
`bool` accepts `ON`/`TRUE`/`1` as true and `OFF`/`FALSE`/`0` as false;
then the allowed-values membership is checked (a `Value`-class error). -/
def parseRespField (rd : RespDef) (part : String) : Except RespErr PyVal :=
  if rd.rtype == "int" then
    match parseIntStr part with
    | some n => if respValuesOk rd (.int n) then .ok (.int n) else .error .fieldValueError
    | Option.none => .error .fieldTypeError
  else if rd.rtype == "float" then
    match parseFloatStr part with
    | some q => if respValuesOk rd (.float q) then .ok (.float q) else .error .fieldValueError
    | Option.none => .error .fieldTypeError
  else if rd.rtype == "str" then
    if respValuesOk rd (.str part) then .ok (.str part) else .error .fieldValueError
  else if rd.rtype == "bool" then
    if ["ON", "TRUE", "1"].contains (sUpper part) then .ok (.bool true)
    else if ["OFF", "FALSE", "0"].contains (sUpper part) then .ok (.bool false)
    else .error .fieldTypeError
  else .error .fieldTypeError

/-- Modelled from the spec: parse the comma-split parts pairwise against
the field definitions (called only when the counts agree). -/
def parseRespFields : List RespDef → List String → Except RespErr (List PyVal)
  | [], [] => .ok []
  | f :: fs, p :: ps =>
    match parseRespField f p with
    | .error e => .error e
    | .ok v =>
      match parseRespFields fs ps with
      | .error e => .error e
      | .ok vs => .ok (v :: vs)
  | _, _ => .error .responseShapeMismatch

/-- Modelled from the spec: `parse_response(command, raw_text)` — look up
the command's response definitions after stripping a query marker and
trailing suffix digits (an unmatched command is an error); zero fields
return the raw text unchanged; one field parses a single value from the
stripped text; several fields split the raw text on commas, strip each
part, fail `ResponseShapeMismatch` when the part count differs from the
field count, and otherwise parse the parts pairwise. -/
def parse_response (cs : List (String × CmdDef)) (command : String)
    (raw : String) : Except RespErr RespOut :=
  let base := dropTrailingDigits (if isQueryCmd command then stripLast command else command)
  match List.lookup base cs with
  | Option.none => .error .unknownCommand
  | some cd =>
    match cd.response? with
    | Option.none => .error .unknownCommand
    | some [] => .ok (.raw raw)
    | some [f] =>
      match parseRespField f (pyStrip raw) with
      | .error e => .error e
      | .ok v => .ok (.one v)
    | some fields =>
      let parts := (pySplit ',' raw).map pyStrip
      if parts.length ≠ fields.length then .error .responseShapeMismatch
      else
        match parseRespFields fields parts with
        | .error e => .error e
        | .ok vs => .ok (.many vs)

/-- The `MULTI` query of scenario 5: response shape
`[int, float, str(values=[A,B])]`. -/
def multiDef : CmdDef :=
  { query? := some [],
    response? := some
      [{ rtype := "int" }, { rtype := "float" },
       { rtype := "str", rvalues? := some [.str "A", .str "B"] }] }

def catMulti : List (String × CmdDef) := [("MULTI", multiDef)]

/-- `SOUR:FUNC` of scenario 3: one required `str` argument restricted to
an enumerated value set. -/
def funcDef : ArgDef :=
  { type? := some "str", required := true, values? := some [.str "VOLT", .str "CURR"] }

def catFunc : List (String × CmdDef) := [("SOUR:FUNC", { set? := some [funcDef] })]

/-- A `VOLT` variant whose QUERY form takes an optional channel argument
and declares a response shape. -/
def voltQDef : CmdDef :=
  { query? := some [{ type? := some "int", required := false, range? := some (.int 1, .int 4) }],
    response? := some [{ rtype := "float" }] }

def catVoltQ : List (String × CmdDef) := [("VOLT", voltQDef)]

/-- A definition list with a required fixed prefix followed by a required
variadic tail. -/
def preDef : CmdDef :=
  { set? := some
      [{ type? := some "int", required := true },
       { type? := some "float", required := true, variadic := true }] }

def catPre : List (String × CmdDef) := [("DYN:PRE", preDef)]

/-- A command whose set form is supported with no arguments. -/
def catNoArgs : List (String × CmdDef) := [("SYST:ERR", { set? := some [] })]

/-- A command whose query form is declared supported but whose response
definition is missing (a catalog authoring defect). -/
def qNoRespDef : CmdDef := { query? := some [] }

def catQNoResp : List (String × CmdDef) := [("STAT", qNoRespDef)]

/-- A command with an optional argument whose declared default violates
its own definition (string default on an `int` argument). -/
def badDefaultDef : CmdDef :=
  { set? := some
      [{ type? := some "int", required := false, default? := some (.str "x") }] }

def catBadDefault : List (String × CmdDef) := [("CONF", badDefaultDef)]

/-- A numeric definition whose range clamp target is excluded by its own
allowed-values list. -/
def enumRangeDef : ArgDef :=
  { type? := some "int", required := true, values? := some [.int 2, .int 3],
    range? := some (.int 1, .int 4) }

def catEnumRange : List (String × CmdDef) := [("CURR", { set? := some [enumRangeDef] })]

/-- The base name the engine resolves a command token to: the token
without a trailing query marker. -/
def cmdBase (command : String) : String :=
  if isQueryCmd command then stripLast command else command

/-- Bare single-type argument definitions used to state the type-checking
behavior of `validate_argument`. -/
def bDef : ArgDef := { type? := some "bool" }

def iDef : ArgDef := { type? := some "int" }

def fDef : ArgDef := { type? := some "float" }

def sDef : ArgDef := { type? := some "str" }

/-- A required `float` definition with range `[0, 60]` (float bounds),
used for the normalization/clamping statements. -/
def vclampDef : ArgDef :=
  { type? := some "float", required := true,
    range? := some (.float (mkRat 0 1), .float (mkRat 60 1)) }

def catClamp : List (String × CmdDef) := [("VC", { set? := some [vclampDef] })]

/-- A required `int` definition with range `[1, 4]` (int bounds), used for
the int-typed normalization/clamping statements. -/
def vclampIntDef : ArgDef :=
  { type? := some "int", required := true, range? := some (.int 1, .int 4) }

def catClampInt : List (String × CmdDef) := [("VI", { set? := some [vclampIntDef] })]

/-- C1: `validate_command("VOLT", 2, 12.5)` and
`validate_command("VOLT", 12.5)` behave as the claim states (optional
`int` slot skipped on mismatch), but `validate_command("VOLT")` with no
arguments does NOT fail with a missing-required-argument error: the
emptiness shortcut only tests the FIRST definition, which is optional
here, so the required `float` definition is silently omitted and the bare
string `"VOLT"` is returned. -/
theorem scpi_c1_volt_scenarios :
    validate_command catVolt "VOLT" [.int 2, .float (mkRat 25 2)] = .ok "VOLT 2,12.5"
    ∧ validate_command catVolt "VOLT" [.float (mkRat 25 2)] = .ok "VOLT 12.5"
    ∧ validate_command catVolt "VOLT" [] = .ok "VOLT" := by
  refine ⟨by decide, by decide, by decide⟩

/-- C8: `SCPICommandSet.get` raises `UnboundLocalError` on any token
without a trailing `?` (the local `base` is only assigned inside the
marker-stripping branch), and for a marker-suffixed token it falls back
to `dict.get(base, None)`, returning `None` rather than failing when the
base name is absent. -/
theorem scpi_c8_get_unbound_local :
    scpiGet catVolt "VOLT" = .error .unboundLocalError
    ∧ scpiGet catVolt "VOLT?" = .ok (some voltDef)
    ∧ scpiGet catVolt "NOPE?" = .ok Option.none := by
  refine ⟨by decide, by decide, by decide⟩

/-- C10: accepted values are emitted verbatim through `str()`: a boolean
`True` renders as `"True"` (not `"ON"`/`"1"`), the accepted lowercase
token `"on"` stays `"on"`, and the numeric `1` stays `"1"`. -/
theorem scpi_c10_verbatim_rendering :
    validate_command catShor "INP:SHOR" [.bool true] = .ok "INP:SHOR True"
    ∧ validate_command catShor "INP:SHOR" [.str "on"] = .ok "INP:SHOR on"
    ∧ validate_command catShor "INP:SHOR" [.int 1] = .ok "INP:SHOR 1" := by
  refine ⟨by decide, by decide, by decide⟩

/-- C2 counterexample: for the variadic-terminated `DYN:SEQ` definition
list (whose fixed prefix is empty, hence vacuously satisfied), supplying
ZERO values does not succeed: the emptiness shortcut rejects the call
because the first (variadic, required) definition is required. -/
theorem scpi_c2_zero_values_fail :
    validate_command catDyn "DYN:SEQ" []
      = .error (.argumentError "DYN:SEQ" "No arguments, but arguments required!") := by
  decide

/-- C3 counterexample: requesting the unsupported query form raises the
SAME exception class (`SCPIUnknownCommandError`) as an unknown command —
the two are distinguished only by their info text, not by a distinct
error kind. -/
theorem scpi_c3_unsupported_form_same_class :
    validate_command catShor "INP:SHOR?" []
      = .error (.unknownCommand "INP:SHOR?" "Query format not supported.")
    ∧ validate_command catShor "NOPE" []
      = .error (.unknownCommand "NOPE" "Base command not found.")
    ∧ SCPIErr.cls (.unknownCommand "INP:SHOR?" "Query format not supported.")
      = SCPIErr.cls (.unknownCommand "NOPE" "Base command not found.") := by
  refine ⟨by decide, by decide, rfl⟩

/-- C4 counterexample: for a query with arguments the emitted string keeps
the query marker where the caller wrote it (immediately after the base
name) and no trailing marker is appended, so the result does not end with
the marker. -/
theorem scpi_c4_query_marker_not_appended :
    validate_command catVoltQ "VOLT?" [.int 2] = .ok "VOLT? 2"
    ∧ "VOLT? 2" ≠ "VOLT 2?"
    ∧ ("VOLT? 2").data.getLast? ≠ some '?' := by
  refine ⟨by decide, by decide, by decide⟩

/-- C6 counterexample: a numeric definition with both a range and an
allowed-values list: normalization clamps 10 to the upper bound 4, but
the clamped value 4 is outside the allowed-values list, so the normalized
value still FAILS validation (with a value error). -/
theorem scpi_c6_clamped_value_rejected :
    normalize_set_value catEnumRange "CURR" (.int 10) = .int 4
    ∧ validate_argument (.int 4) enumRangeDef = .ok (some .valErr)
    ∧ validate_command catEnumRange "CURR" [.int 4]
      = .error (.argumentValueError "CURR" "Unable to validate argument against definition") := by
  refine ⟨by decide, by decide, by decide⟩

/-- C7 counterexample: both catalog authoring defects are raised through
the SAME exception classes as caller errors — a query without a response
definition raises `SCPIUnknownCommandError` (the unknown-command class),
and an invalid declared default raises `SCPIArgumentError` (the class of
a caller type error). -/
theorem scpi_c7_definition_error_same_class :
    validate_command catQNoResp "STAT?" []
      = .error (.unknownCommand "STAT?"
          "Command definition error: Query supported but no responce format set.")
    ∧ SCPIErr.cls (.unknownCommand "STAT?"
          "Command definition error: Query supported but no responce format set.")
      = SCPIErr.cls (.unknownCommand "NOPE" "Base command not found.")
    ∧ validate_command catBadDefault "CONF" []
      = .error (.argumentError "CONF" "Default value invalid for definition")
    ∧ SCPIErr.cls (.argumentError "CONF" "Default value invalid for definition")
      = SCPIErr.cls (.argumentError "INP:SHOR" "Unable to validate argument against definition") := by
  refine ⟨by decide, rfl, by decide, rfl⟩

/-- C3 (amended): for every catalog command whose query argument
definitions are absent, requesting the query form fails — for every
argument sequence — with `SCPIUnknownCommandError` carrying the info text
`"Query format not supported."` (the same exception class as an unknown
command, distinguishable only by its info text). -/
theorem scpi_c3_query_unsupported_amended :
    ∀ (cs : List (String × CmdDef)) (cmd : String) (args : List PyVal) (cd : CmdDef),
      isQueryCmd cmd = true → List.lookup (stripLast cmd) cs = some cd →
      cd.query? = Option.none →
      validate_command cs cmd args
        = .error (.unknownCommand cmd "Query format not supported.") := by
  intro cs cmd args cd hq hl hn
  simp [validate_command, hq, hl, hn]

/-- Witness for C3 at a concrete catalog: `INP:SHOR` has no query form,
so its query fails with the format-not-supported error even with
arguments supplied. -/
theorem scpi_c3_query_unsupported_witness :
    validate_command catShor "INP:SHOR?" [.int 1, .str "x"]
      = .error (.unknownCommand "INP:SHOR?" "Query format not supported.") :=
  scpi_c3_query_unsupported_amended catShor "INP:SHOR?" [.int 1, .str "x"] shorDef
    (by decide) (by decide) rfl

/-- C7 (amended): both catalog authoring defects surface, but through the
engine's existing exception classes rather than a distinct definition
error kind: a query form declared supported with no response definition
fails (for every argument sequence) with `SCPIUnknownCommandError` whose
info text marks a command definition error, and an optional definition
whose declared default does not satisfy its own validation fails during
default fill with `SCPIArgumentError`. -/
theorem scpi_c7_definition_defects_amended :
    (∀ (cs : List (String × CmdDef)) (cmd : String) (args : List PyVal)
        (cd : CmdDef) (ads : List ArgDef),
      isQueryCmd cmd = true → List.lookup (stripLast cmd) cs = some cd →
      cd.query? = some ads → cd.response? = Option.none →
      validate_command cs cmd args
        = .error (.unknownCommand cmd
            "Command definition error: Query supported but no responce format set."))
    ∧ validate_command catBadDefault "CONF" []
      = .error (.argumentError "CONF" "Default value invalid for definition") := by
  constructor
  · intro cs cmd args cd ads hq hl hqa hr
    simp [validate_command, hq, hl, hqa, hr]
  · decide

/-- Witness for C7 at a concrete catalog: `STAT` declares a query form
but no response shape. -/
theorem scpi_c7_definition_defects_witness :
    validate_command catQNoResp "STAT?" [.int 5]
      = .error (.unknownCommand "STAT?"
          "Command definition error: Query supported but no responce format set.") :=
  scpi_c7_definition_defects_amended.1 catQNoResp "STAT?" [.int 5] qNoRespDef []
    (by decide) (by decide) rfl rfl

/-- C9 (spec-modelled): for every command resolving to a multi-field
response shape, `parse_response` fails `ResponseShapeMismatch` whenever
the comma-split part count differs from the field count; on the `MULTI`
scenario it parses `"1,2.5,A"` to `(1, 2.5, "A")` and rejects `"1,2.5"`
with `ResponseShapeMismatch`. -/
theorem scpi_c9_multi_response :
    (∀ (cs : List (String × CmdDef)) (cmd raw : String) (cd : CmdDef)
        (fields : List RespDef),
      List.lookup (dropTrailingDigits (if isQueryCmd cmd then stripLast cmd else cmd)) cs
        = some cd →
      cd.response? = some fields → 2 ≤ fields.length →
      ((pySplit ',' raw).map pyStrip).length ≠ fields.length →
      parse_response cs cmd raw = .error .responseShapeMismatch)
    ∧ parse_response catMulti "MULTI?" "1,2.5,A"
      = .ok (.many [.int 1, .float (mkRat 5 2), .str "A"])
    ∧ parse_response catMulti "MULTI?" "1,2.5" = .error .responseShapeMismatch := by
  refine ⟨?_, by decide, by decide⟩
  intro cs cmd raw cd fields hl hr hlen hne
  rcases fields with _ | ⟨f1, _ | ⟨f2, rest⟩⟩
  · simp at hlen
  · norm_num at hlen
  · simp only [parse_response, hl, hr]
    simp only [List.length_map] at hne ⊢
    simp only [ne_eq, ite_not]
    rw [if_neg]
    intro h
    exact absurd h (by simpa using hne)

/-- Witness for C9 at a concrete shape: a two-part response against the
three-field `MULTI` shape is a shape mismatch. -/
theorem scpi_c9_multi_response_witness :
    parse_response catMulti "MULTI?" "1,2.5" = .error .responseShapeMismatch :=
  scpi_c9_multi_response.1 catMulti "MULTI?" "1,2.5" multiDef
    [{ rtype := "int" }, { rtype := "float" },
     { rtype := "str", rvalues? := some [.str "A", .str "B"] }]
    (by decide) rfl (by decide) (by decide)

/-- C5: the type check runs first — a `bool` definition accepts every
boolean, a non-boolean numeric exactly when it equals 0 or 1, a string
exactly when its stripped upper-casing is an accepted token, and `None`
is a type error; `int` and `float` definitions reject booleans; a `str`
definition accepts exactly strings; and an allowed-values miss on a
well-typed string is reported as a VALUE error (`SCPIArgumentValueError`
from `validate_command`), membership being case-insensitive. -/
theorem scpi_c5_argument_typing :
    (∀ b, validate_argument (.bool b) bDef = .ok Option.none)
    ∧ (∀ n : Int,
        validate_argument (.int n) bDef
          = .ok (if n = 0 ∨ n = 1 then Option.none else some .tyErr))
    ∧ (∀ q : Rat,
        validate_argument (.float q) bDef
          = .ok (if q = 0 ∨ q = 1 then Option.none else some .tyErr))
    ∧ (∀ s : String,
        validate_argument (.str s) bDef
          = .ok (if sUpper (pyStrip s) ∈ boolTokens then Option.none else some .tyErr))
    ∧ validate_argument PyVal.none bDef = .ok (some .tyErr)
    ∧ (∀ b, validate_argument (.bool b) iDef = .ok (some .tyErr))
    ∧ (∀ b, validate_argument (.bool b) fDef = .ok (some .tyErr))
    ∧ (∀ v, validate_argument v sDef
        = .ok (match v with | .str _ => Option.none | _ => some .tyErr))
    ∧ validate_command catFunc "SOUR:FUNC" [.str "BAD"]
      = .error (.argumentValueError "SOUR:FUNC" "Unable to validate argument against definition")
    ∧ validate_command catFunc "SOUR:FUNC" [.str "volt"] = .ok "SOUR:FUNC volt" := by
  refine ⟨fun b => by cases b <;> decide, fun n => ?_, fun q => ?_, fun s => ?_,
    by decide, fun b => by cases b <;> decide, fun b => by cases b <;> decide,
    fun v => ?_, by decide, by decide⟩
  · by_cases h : n = 0 ∨ n = 1 <;>
      simp [validate_argument, typeOk?, boolTypeOk, valuesFail, rangeFail, bDef, h]
  · by_cases h : q = 0 ∨ q = 1 <;>
      simp [validate_argument, typeOk?, boolTypeOk, valuesFail, rangeFail, bDef, h]
  · by_cases h : sUpper (pyStrip s) ∈ boolTokens <;>
      simp [validate_argument, typeOk?, boolTypeOk, valuesFail, rangeFail, bDef, h,
        List.elem_iff]
  · cases v <;> simp [validate_argument, typeOk?, valuesFail, rangeFail, sDef]

/-- For a `float`-typed definition with no allowed-values list and a
declared range, `validate_argument` reduces to the range check. -/
theorem aux_validate_float_range (d : ArgDef) (q : Rat) (lo hi : PyVal)
    (ht : d.type? = some "float") (hv : d.values? = Option.none)
    (hr : d.range? = some (lo, hi)) :
    validate_argument (.float q) d
      = .ok (if boundLT q lo || boundGT q hi then some .valErr else Option.none) := by
  by_cases h : boundLT q lo || boundGT q hi <;>
    simp [validate_argument, typeOk?, valuesFail, rangeFail, ht, hv, hr, h]

/-- For an `int`-typed definition with no allowed-values list and a
declared range, `validate_argument` reduces to the range check. -/
theorem aux_validate_int_range (d : ArgDef) (n : Int) (lo hi : PyVal)
    (ht : d.type? = some "int") (hv : d.values? = Option.none)
    (hr : d.range? = some (lo, hi)) :
    validate_argument (.int n) d
      = .ok (if boundLT (n : Rat) lo || boundGT (n : Rat) hi
          then some .valErr else Option.none) := by
  by_cases h : boundLT (n : Rat) lo || boundGT (n : Rat) hi <;>
    simp [validate_argument, typeOk?, valuesFail, rangeFail, ht, hv, hr, h]

/-- When the range check fails on a float argument, `validate_argument`
reports the `"value"` kind whether or not an allowed-values list is also
present: a values-list miss and a range miss both carry that kind. -/
theorem aux_validate_value_kind_float (d : ArgDef) (q : Rat)
    (ht : d.type? = some "float") (hrf : rangeFail d (.float q) = true) :
    validate_argument (.float q) d = .ok (some .valErr) := by
  by_cases hv : valuesFail d (.float q) <;>
    simp [validate_argument, typeOk?, ht, hv, hrf]

/-- As `aux_validate_value_kind_float`, for an int argument. -/
theorem aux_validate_value_kind_int (d : ArgDef) (n : Int)
    (ht : d.type? = some "int") (hrf : rangeFail d (.int n) = true) :
    validate_argument (.int n) d = .ok (some .valErr) := by
  by_cases hv : valuesFail d (.int n) <;>
    simp [validate_argument, typeOk?, ht, hv, hrf]

/-- Closed form of the clamping step on a float value with two float
bounds. -/
theorem aux_numClamp_float (q l h : Rat) :
    numClamp (.float q) q (.float l) (.float h)
      = .float (if q < l then (if l > h then h else l) else (if q > h then h else q)) := by
  unfold numClamp
  by_cases hql : q < l <;> by_cases hlh : (l : Rat) > h <;> by_cases hqh : q > h <;>
    simp [pyNumVal, hql, hlh, hqh]

/-- Closed form of the clamping step on an int value with two int
bounds. -/
theorem aux_numClamp_int (n l h : Int) :
    numClamp (.int n) (n : Rat) (.int l) (.int h)
      = .int (if (n : Rat) < (l : Rat) then (if (l : Rat) > (h : Rat) then h else l)
          else (if (n : Rat) > (h : Rat) then h else n)) := by
  unfold numClamp
  by_cases hql : (n : Rat) < (l : Rat) <;> by_cases hlh : (l : Rat) > (h : Rat) <;>
    by_cases hqh : (n : Rat) > (h : Rat) <;> simp [pyNumVal, hql, hlh, hqh]

/-- C6 (amended): for every numeric (`int` or `float`) definition with a
declared range, a well-typed value strictly below the lower bound or
strictly above the upper bound fails with a value error (surfaced as
`SCPIArgumentValueError`) — with or without an allowed-values list, since
both the values and range checks carry the `"value"` kind; normalization
substitutes a case-insensitive `MIN`/`MAX` token by the corresponding
bound of the first set definition when that bound is present; and a
numeric value is clamped into `[min, max]`, after which it validates
successfully PROVIDED the definition declares no allowed-values list
(only this last conclusion needs that restriction: the counterexample
shows a clamped value may still be rejected by a values list). -/
theorem scpi_c6_range_normalize_amended :
    (∀ (d : ArgDef) (q l : Rat) (lo hi : PyVal),
      d.type? = some "float" → d.range? = some (lo, hi) →
      pyNumVal lo = some l → q < l →
      validate_argument (.float q) d = .ok (some .valErr))
    ∧ (∀ (d : ArgDef) (n : Int) (l : Rat) (lo hi : PyVal),
      d.type? = some "int" → d.range? = some (lo, hi) →
      pyNumVal lo = some l → (n : Rat) < l →
      validate_argument (.int n) d = .ok (some .valErr))
    ∧ (∀ (d : ArgDef) (q h : Rat) (lo hi : PyVal),
      d.type? = some "float" → d.range? = some (lo, hi) →
      pyNumVal hi = some h → q > h →
      validate_argument (.float q) d = .ok (some .valErr))
    ∧ (∀ (d : ArgDef) (n : Int) (h : Rat) (lo hi : PyVal),
      d.type? = some "int" → d.range? = some (lo, hi) →
      pyNumVal hi = some h → (n : Rat) > h →
      validate_argument (.int n) d = .ok (some .valErr))
    ∧ (∀ (cs : List (String × CmdDef)) (cmd : String) (cd : CmdDef) (d : ArgDef)
        (rest : List ArgDef) (lo hi : PyVal) (s : String),
      List.lookup cmd cs = some cd → cd.set? = some (d :: rest) →
      d.range? = some (lo, hi) → lo ≠ PyVal.none → sUpper s = "MIN" →
      normalize_set_value cs cmd (.str s) = lo)
    ∧ (∀ (cs : List (String × CmdDef)) (cmd : String) (cd : CmdDef) (d : ArgDef)
        (rest : List ArgDef) (lo hi : PyVal) (s : String),
      List.lookup cmd cs = some cd → cd.set? = some (d :: rest) →
      d.range? = some (lo, hi) → hi ≠ PyVal.none → sUpper s = "MAX" →
      normalize_set_value cs cmd (.str s) = hi)
    ∧ (∀ (cs : List (String × CmdDef)) (cmd : String) (cd : CmdDef) (d : ArgDef)
        (rest : List ArgDef) (l h q : Rat),
      List.lookup cmd cs = some cd → cd.set? = some (d :: rest) →
      d.type? = some "float" → d.values? = Option.none →
      d.range? = some (.float l, .float h) → l ≤ h →
      validate_argument (normalize_set_value cs cmd (.float q)) d = .ok Option.none)
    ∧ (∀ (cs : List (String × CmdDef)) (cmd : String) (cd : CmdDef) (d : ArgDef)
        (rest : List ArgDef) (l h n : Int),
      List.lookup cmd cs = some cd → cd.set? = some (d :: rest) →
      d.type? = some "int" → d.values? = Option.none →
      d.range? = some (.int l, .int h) → l ≤ h →
      validate_argument (normalize_set_value cs cmd (.int n)) d = .ok Option.none) := by
  refine ⟨?_, ?_, ?_, ?_, ?_, ?_, ?_, ?_⟩
  · intro d q l lo hi ht hr hlo hql
    apply aux_validate_value_kind_float d q ht
    simp [rangeFail, hr, boundLT, hlo, hql]
  · intro d n l lo hi ht hr hlo hql
    apply aux_validate_value_kind_int d n ht
    simp [rangeFail, hr, boundLT, hlo, hql]
  · intro d q h lo hi ht hr hhi hqh
    apply aux_validate_value_kind_float d q ht
    simp [rangeFail, hr, boundGT, hhi, hqh]
  · intro d n h lo hi ht hr hhi hqh
    apply aux_validate_value_kind_int d n ht
    simp [rangeFail, hr, boundGT, hhi, hqh]
  · intro cs cmd cd d rest lo hi s hl hset hr hne hmin
    simp [normalize_set_value, hl, hset, hr, normTokenSub, hmin, hne]
  · intro cs cmd cd d rest lo hi s hl hset hr hne hmax
    simp [normalize_set_value, hl, hset, hr, normTokenSub, hmax, hne]
  · intro cs cmd cd d rest l h q hl hset ht hv hr hlh
    have hnorm : normalize_set_value cs cmd (.float q)
        = numClamp (.float q) q (.float l) (.float h) := by
      simp [normalize_set_value, hl, hset, hr, normNumeric, ht, pyFloatOf]
    rw [hnorm, aux_numClamp_float q l h]
    have hnlh : ¬ ((l : Rat) > h) := not_lt.mpr hlh
    by_cases hql : q < l
    · rw [if_pos hql, if_neg hnlh,
        aux_validate_float_range d l (.float l) (.float h) ht hv hr]
      simp [boundLT, boundGT, pyNumVal, lt_irrefl, hnlh]
    · rw [if_neg hql]
      by_cases hqh : q > h
      · rw [if_pos hqh, aux_validate_float_range d h (.float l) (.float h) ht hv hr]
        have hhl : ¬ ((h : Rat) < l) := not_lt.mpr hlh
        simp [boundLT, boundGT, pyNumVal, hhl, lt_irrefl]
      · rw [if_neg hqh, aux_validate_float_range d q (.float l) (.float h) ht hv hr]
        simp [boundLT, boundGT, pyNumVal, hql, hqh]
  · intro cs cmd cd d rest l h n hl hset ht hv hr hlh
    have hlh2 : ((l : Int) : Rat) ≤ ((h : Int) : Rat) := by exact_mod_cast hlh
    have hnorm : normalize_set_value cs cmd (.int n)
        = numClamp (.int n) ((n : Int) : Rat) (.int l) (.int h) := by
      simp [normalize_set_value, hl, hset, hr, normNumeric, ht, pyIntOf]
    rw [hnorm, aux_numClamp_int n l h]
    have hnlh : ¬ (((l : Int) : Rat) > ((h : Int) : Rat)) := not_lt.mpr hlh2
    by_cases hql : ((n : Int) : Rat) < ((l : Int) : Rat)
    · rw [if_pos hql, if_neg hnlh,
        aux_validate_int_range d l (.int l) (.int h) ht hv hr]
      simp [boundLT, boundGT, pyNumVal, lt_irrefl, hnlh]
    · rw [if_neg hql]
      by_cases hqh : ((n : Int) : Rat) > ((h : Int) : Rat)
      · rw [if_pos hqh, aux_validate_int_range d h (.int l) (.int h) ht hv hr]
        have hhl : ¬ (((h : Int) : Rat) < ((l : Int) : Rat)) := not_lt.mpr hlh2
        simp [boundLT, boundGT, pyNumVal, hhl, lt_irrefl]
      · rw [if_neg hqh, aux_validate_int_range d n (.int l) (.int h) ht hv hr]
        simp [boundLT, boundGT, pyNumVal, hql, hqh]

/-- Witness for C6 at concrete catalogs: below/above-range values fail
with value errors for a bare float definition (`VC`, range `[0, 60]`) and
for the int definition that ALSO carries an allowed-values list
(`enumRangeDef`, values `[2,3]`, range `[1,4]`); `"min"`/`"MAX"` map to
the bounds; and out-of-range `100.0` (float) and `10` (int) clamp to
values that validate. -/
theorem scpi_c6_range_normalize_witness :
    validate_argument (.float (mkRat (-1) 1)) vclampDef = .ok (some .valErr)
    ∧ validate_argument (.int 0) enumRangeDef = .ok (some .valErr)
    ∧ validate_argument (.float (mkRat 61 1)) vclampDef = .ok (some .valErr)
    ∧ validate_argument (.int 10) enumRangeDef = .ok (some .valErr)
    ∧ normalize_set_value catClamp "VC" (.str "min") = .float (mkRat 0 1)
    ∧ normalize_set_value catClamp "VC" (.str "MAX") = .float (mkRat 60 1)
    ∧ validate_argument (normalize_set_value catClamp "VC" (.float (mkRat 100 1))) vclampDef
      = .ok Option.none
    ∧ validate_argument (normalize_set_value catClampInt "VI" (.int 10)) vclampIntDef
      = .ok Option.none := by
  refine ⟨?_, ?_, ?_, ?_, ?_, ?_, ?_, ?_⟩
  · exact scpi_c6_range_normalize_amended.1 vclampDef (mkRat (-1) 1) (mkRat 0 1)
      (.float (mkRat 0 1)) (.float (mkRat 60 1)) rfl rfl rfl (by decide)
  · exact scpi_c6_range_normalize_amended.2.1 enumRangeDef 0 ((1 : Int) : Rat)
      (.int 1) (.int 4) rfl rfl rfl (by decide)
  · exact scpi_c6_range_normalize_amended.2.2.1 vclampDef (mkRat 61 1) (mkRat 60 1)
      (.float (mkRat 0 1)) (.float (mkRat 60 1)) rfl rfl rfl (by decide)
  · exact scpi_c6_range_normalize_amended.2.2.2.1 enumRangeDef 10 ((4 : Int) : Rat)
      (.int 1) (.int 4) rfl rfl rfl (by decide)
  · exact scpi_c6_range_normalize_amended.2.2.2.2.1 catClamp "VC"
      { set? := some [vclampDef] } vclampDef []
      (.float (mkRat 0 1)) (.float (mkRat 60 1)) "min" (by decide) rfl rfl (by decide) (by decide)
  · exact scpi_c6_range_normalize_amended.2.2.2.2.2.1 catClamp "VC"
      { set? := some [vclampDef] } vclampDef []
      (.float (mkRat 0 1)) (.float (mkRat 60 1)) "MAX" (by decide) rfl rfl (by decide) (by decide)
  · exact scpi_c6_range_normalize_amended.2.2.2.2.2.2.1 catClamp "VC"
      { set? := some [vclampDef] } vclampDef [] (mkRat 0 1) (mkRat 60 1) (mkRat 100 1)
      (by decide) rfl rfl rfl rfl (by decide)
  · exact scpi_c6_range_normalize_amended.2.2.2.2.2.2.2 catClampInt "VI"
      { set? := some [vclampIntDef] } vclampIntDef [] 1 4 10
      (by decide) rfl rfl rfl rfl (by decide)

/-- Any float validates against the bare variadic float definition. -/
theorem aux_va_float_dyn (q : Rat) :
    validate_argument (.float q) dynArg = .ok Option.none := rfl

/-- The matching loop on the `DYN:SEQ` definition list absorbs every
float value into definition index 0 without advancing the cursor. -/
theorem aux_dyn_matchArgs (vs : List Rat) :
    ∀ m : Nat → List PyVal,
      matchArgs "DYN:SEQ" [dynArg] (vs.map PyVal.float) 0 m
        = .ok (fun i => if i = 0 then m 0 ++ vs.map PyVal.float else m i) := by
  induction vs with
  | nil =>
    intro m
    exact congrArg Except.ok (funext fun i => by by_cases h : i = 0 <;> simp [matchArgs, h])
  | cons v vs ih =>
    intro m
    simp only [List.map_cons, matchArgs, List.length_cons, List.length_nil,
      Nat.reduceAdd, nonpos_iff_eq_zero, one_ne_zero, List.drop_zero]
    rw [if_neg (by norm_num)]
    have hscan : scanMatch "DYN:SEQ" (PyVal.float v) [dynArg] 0 Option.none
        = .ok (0, dynArg) := rfl
    rw [hscan]
    show matchArgs "DYN:SEQ" [dynArg] (vs.map PyVal.float)
        (if dynArg.variadic then 0 else 0 + 1)
        (fun i => if i = 0 then m i ++ [PyVal.float v] else m i) = _
    rw [show (if dynArg.variadic then 0 else 0 + 1) = 0 from rfl]
    rw [ih (fun i => if i = 0 then m i ++ [PyVal.float v] else m i)]
    exact congrArg Except.ok (funext fun i => by
      by_cases h : i = 0 <;> simp [h])

/-- C2 (amended): a variadic-terminated definition list accepts any
positive number N of trailing values (the cursor never advances past the
variadic definition, so every value is absorbed into it in encounter
order), and 0 trailing values succeed when a nonempty satisfied fixed
prefix precedes the variadic definition; but when the variadic definition
is itself the FIRST definition and required, supplying no arguments at
all fails with the missing-argument error; `DYN:SEQ 1.0,2.0,3.0` formats
as claimed. -/
theorem scpi_c2_variadic_amended :
    (∀ (v : Rat) (vs : List Rat),
      validate_command catDyn "DYN:SEQ" ((v :: vs).map PyVal.float)
        = .ok (pyStrip ("DYN:SEQ" ++ " " ++
            String.intercalate "," (((v :: vs).map PyVal.float).map pyStr))))
    ∧ validate_command catPre "DYN:PRE" [.int 1] = .ok "DYN:PRE 1"
    ∧ validate_command catDyn "DYN:SEQ" []
      = .error (.argumentError "DYN:SEQ" "No arguments, but arguments required!")
    ∧ validate_command catDyn "DYN:SEQ"
        [.float (mkRat 1 1), .float (mkRat 2 1), .float (mkRat 3 1)]
      = .ok "DYN:SEQ 1.0,2.0,3.0" := by
  refine ⟨?_, by decide, by decide, by decide⟩
  intro v vs
  have h0 : validate_command catDyn "DYN:SEQ" ((v :: vs).map PyVal.float)
      = match matchArgs "DYN:SEQ" [dynArg] ((v :: vs).map PyVal.float) 0 (fun _ => []) with
        | .error e => .error e
        | .ok matched =>
          match fillDefaults "DYN:SEQ" [dynArg].enum matched with
          | .error e => .error e
          | .ok matched2 =>
            .ok (pyStrip ("DYN:SEQ" ++ " " ++
              String.intercalate "," ((collectArgs [dynArg].enum matched2).map pyStr))) := rfl
  rw [h0, aux_dyn_matchArgs (v :: vs) (fun _ => [])]
  trans Except.ok (pyStrip ("DYN:SEQ" ++ " " ++
      String.intercalate "," (((PyVal.float v :: vs.map PyVal.float) ++ []).map pyStr)))
  · rfl
  · simp

/-- Every successful `validate_command` result is the stripped
concatenation of the full command token, one space, and some argument
string (the comma-joined values). -/
theorem aux_validate_ok_shape (cs : List (String × CmdDef)) (cmd : String)
    (args : List PyVal) (s : String)
    (h : validate_command cs cmd args = .ok s) :
    ∃ t : String, s = pyStrip (cmd ++ " " ++ t) := by
  unfold validate_command at h
  dsimp only at h
  split at h
  · exact Except.noConfusion h
  · split at h
    · exact Except.noConfusion h
    · split at h
      · exact Except.noConfusion h
      · split at h
        · exact Except.noConfusion h
        · split at h
          · exact Except.noConfusion h
          · split at h
            · exact Except.noConfusion h
            · injection h with h
              exact ⟨_, h.symm⟩

/-- Stripping `c ++ " " ++ t` keeps `c` as a prefix whenever `c` is
nonempty and neither starts nor ends with whitespace. -/
theorem aux_pyStrip_append (c t : String)
    (hh : ∀ x, c.data.head? = some x → isPySpace x = false)
    (hl : ∀ x, c.data.getLast? = some x → isPySpace x = false)
    (hne : c.data ≠ []) :
    ∃ u : List Char, (pyStrip (c ++ " " ++ t)).data = c.data ++ u := by
  obtain ⟨x, xs, hcd⟩ := List.exists_cons_of_ne_nil hne
  have hx : isPySpace x = false := hh x (by rw [hcd]; rfl)
  have hgoal : (pyStrip (c ++ " " ++ t)).data
      = (((c.data ++ (' ' :: t.data)).dropWhile isPySpace).reverse.dropWhile
          isPySpace).reverse := by
    show (((c ++ " " ++ t).data.dropWhile isPySpace).reverse.dropWhile isPySpace).reverse = _
    have hdata : (c ++ " " ++ t).data = c.data ++ (' ' :: t.data) := by
      show (c.data ++ [' ']) ++ t.data = c.data ++ (' ' :: t.data)
      simp
    rw [hdata]
  rw [hgoal]
  have hstep1 : (c.data ++ (' ' :: t.data)).dropWhile isPySpace
      = c.data ++ (' ' :: t.data) := by
    rw [hcd]
    simp [List.dropWhile_cons, hx]
  rw [hstep1, List.reverse_append, List.dropWhile_append]
  by_cases he : (((' ' :: t.data).reverse).dropWhile isPySpace).isEmpty
  · rw [if_pos he]
    have hrev : c.data.reverse ≠ [] := by
      intro hcon
      exact hne (by simpa using congrArg List.reverse hcon)
    obtain ⟨y, ys, hyd⟩ := List.exists_cons_of_ne_nil hrev
    have hy : isPySpace y = false := by
      apply hl
      rw [← List.head?_reverse, hyd]
      rfl
    rw [hyd, List.dropWhile_cons, hy]
    refine ⟨[], ?_⟩
    rw [if_neg (by simp)]
    rw [← hyd, List.reverse_reverse, List.append_nil]
  · rw [if_neg he]
    rw [List.reverse_append, List.reverse_reverse]
    exact ⟨_, rfl⟩

/-- C4 (amended): every successful `validate_command` output starts with
the base command name — for a query the marker follows the base name
immediately (before the separating space), and NO trailing marker is
appended; values are comma-joined in definition order; the trailing
separator is trimmed when there are zero argument values.  (The
whitespace side conditions on the command token exclude catalog keys
that begin or end in whitespace, which `str.strip()` would eat.) -/
theorem scpi_c4_assembly_amended :
    (∀ (cs : List (String × CmdDef)) (cmd : String) (args : List PyVal) (s : String),
      (∀ x, cmd.data.head? = some x → isPySpace x = false) →
      (∀ x, cmd.data.getLast? = some x → isPySpace x = false) →
      cmd.data ≠ [] →
      validate_command cs cmd args = .ok s →
      ∃ u : List Char, s.data = (cmdBase cmd).data ++ u)
    ∧ validate_command catVoltQ "VOLT?" [.int 2] = .ok "VOLT? 2"
    ∧ validate_command catVolt "VOLT" [.int 2, .float (mkRat 25 2)] = .ok "VOLT 2,12.5"
    ∧ validate_command catNoArgs "SYST:ERR" [] = .ok "SYST:ERR" := by
  refine ⟨?_, by decide, by decide, by decide⟩
  intro cs cmd args s hh hl hne hok
  obtain ⟨t, hts⟩ := aux_validate_ok_shape cs cmd args s hok
  subst hts
  obtain ⟨u0, hu0⟩ := aux_pyStrip_append cmd t hh hl hne
  unfold cmdBase
  by_cases hq : isQueryCmd cmd
  · rw [if_pos hq]
    have hqq : cmd.data.getLast? = some '?' := eq_of_beq hq
    have hsplit : cmd.data.dropLast ++ ['?'] = cmd.data :=
      List.dropLast_append_getLast? '?' hqq
    refine ⟨'?' :: u0, ?_⟩
    show (pyStrip (cmd ++ " " ++ t)).data = cmd.data.dropLast ++ ('?' :: u0)
    conv_lhs => rw [hu0, ← hsplit, List.append_assoc]
    rfl
  · rw [if_neg hq]
    exact ⟨u0, hu0⟩

/-- Witness for C4 at a concrete query: `"VOLT? 2"` begins with the base
name `VOLT`. -/
theorem scpi_c4_assembly_witness :
    ∃ u : List Char, ("VOLT? 2").data = (cmdBase "VOLT?").data ++ u :=
  scpi_c4_assembly_amended.1 catVoltQ "VOLT?" [.int 2] "VOLT? 2"
    (by decide) (by decide) (by decide) (by decide)
